import Mathlib

/-!
Shallow embedding of `src/src/server.js` from i-am-bee/provider-example.

The repository is registration glue over an external agent framework and
MCP SDK.  External collaborators (tool objects, agent run loops, the MCP
client used for loopback tool discovery) are modelled as environments of
abstract data and functions; the repository's own control flow
(`createLLM`, `registerTools`, `registerAgents`, the two agent handlers,
`createClientServerLinkedPair`, `createServer`) is translated faithfully
from the source.  Fallible calls are modelled with `Except`; errors in
flight are a disjoint union of errors thrown by this repository's own code
and errors produced by the external framework, so that the two can be told
apart in theorems.
-/

namespace ProviderExample

/-- An error value in flight.  `repoThrown` is an error thrown by this
repository's own code (the only `throw` site in the source is in
`createLLM`); `fromFramework` injects an error produced by the external
framework or SDK, carrying it unchanged. -/
inductive JsError (ε : Type) where
  | repoThrown (msg : String)
  | fromFramework (e : ε)
deriving DecidableEq

/-- The LLM client instances the factory can produce.  `ollamaChat` stands
for `new OllamaChatLLM()` from the external framework. -/
inductive LLM where
  | ollamaChat
deriving DecidableEq

/-- `createLLM` (server.js lines 18-25): `switch (type)` with a single
`case "ollama"` returning a fresh `OllamaChatLLM`, and a default branch
throwing `new Error('Unsupported llm ' + type)`. -/
def createLLM {ε : Type} (type : String) : Except (JsError ε) LLM :=
  if type = "ollama" then .ok .ollamaChat
  else .error (.repoThrown ("Unsupported llm " ++ type))

/-- A tool entry as registered on the MCP server by `server.tool(...)`:
name, description, advertised input schema, and the invocation handler. -/
structure RegisteredTool (σ α β : Type) where
  name : String
  description : String
  inputSchema : σ
  handler : α → β

/-- Environment of the two external tool objects (`new OpenMeteoTool()`,
`new DuckDuckGoSearchTool()`): each contributes a description, the shape of
its own `inputSchema()`, and its `run` operation. -/
structure ToolEnv (σ α β : Type) where
  weatherDescription : String
  searchDescription : String
  weatherInputSchemaShape : σ
  searchInputSchemaShape : σ
  weatherRun : α → β
  searchRun : α → β

/-- `registerTools` (server.js lines 27-47).  Note that the source spreads
`weatherTool.inputSchema().shape` in BOTH registrations: line 32 for the
"weather" tool and line 42 for the "search" tool (where `searchTool`'s own
`inputSchema()` is never consulted). -/
def registerTools {σ α β : Type} (env : ToolEnv σ α β) : List (RegisteredTool σ α β) :=
  [ { name := "weather"
      description := env.weatherDescription
      inputSchema := env.weatherInputSchemaShape
      handler := fun args => env.weatherRun args },
    { name := "search"
      description := env.searchDescription
      inputSchema := env.weatherInputSchemaShape
      handler := fun args => env.searchRun args } ]

/-- The schema declared by the underlying tool object itself, i.e. what the
tool named `name` returns from its own `inputSchema()`.  This follows the
spec sentence "the advertised input schema matches the schema declared by
the underlying tool object" and is compared against `registerTools`. -/
def underlyingInputSchema {σ α β : Type} (env : ToolEnv σ α β) (name : String) : Option σ :=
  if name = "weather" then some env.weatherInputSchemaShape
  else if name = "search" then some env.searchInputSchemaShape
  else none

/-- The `llm` field of an agent call's config: `{ type: "ollama" }`. -/
structure LlmConfig where
  type : String
deriving DecidableEq

/-- The config object accepted by a registered agent: LLM selection and the
list of enabled tool names. -/
structure AgentConfig where
  llm : LlmConfig
  tools : List String
deriving DecidableEq

/-- Validity of `config.llm` against the declared zod schema
`z.union([z.object({ type: z.literal("ollama") })])`: only `"ollama"`. -/
def llmSchemaValid (c : LlmConfig) : Bool :=
  c.type == "ollama"

/-- Validity of `config.tools` against `z.array(z.enum("weather", "search"))`:
every element is one of the two tool names. -/
def toolsSchemaValid (ts : List String) : Bool :=
  ts.all (fun t => t == "weather" || t == "search")

/-- Validity of a whole agent config against the registration schema
(server.js lines 53-56 and 82-85). -/
def agentConfigSchemaValid (c : AgentConfig) : Bool :=
  llmSchemaValid c.llm && toolsSchemaValid c.tools

/-- The `result` field of an external agent run output: `text` is read by
the Bee handler, `raw` by the Streamlit handler. -/
structure RunResult where
  text : String
  raw : String
deriving DecidableEq

/-- The output object returned by an external agent's `run`. -/
structure RunOutput where
  result : RunResult
deriving DecidableEq

/-- The memory instance handed to agent constructors: the source always
passes `new UnconstrainedMemory()`. -/
inductive Memory where
  | unconstrained
deriving DecidableEq

/-- A tool discovered over the loopback client by `MCPTool.fromClient`. -/
structure DiscoveredTool where
  name : String
deriving DecidableEq

/-- The constructor arguments of `new BeeAgent({ llm, tools, memory })`. -/
structure BeeParams where
  llm : LLM
  tools : List DiscoveredTool
  memory : Memory
deriving DecidableEq

/-- Environment of external agent-framework calls: `MCPTool.fromClient`
(tool discovery over the loopback client), `BeeAgent(...).run({prompt})`,
and `StreamlitAgent({llm, memory}).run({prompt})`.  Each may fail with a
framework error of type `ε`. -/
structure AgentEnv (ε : Type) where
  fromClient : Except ε (List DiscoveredTool)
  beeRun : BeeParams → String → Except ε RunOutput
  streamlitRun : LLM → Memory → String → Except ε RunOutput

/-- One endpoint of the loopback in-memory client/server pair opened by
`createClientServerLinkedPair`. -/
inductive Endpoint where
  | client
  | server
deriving DecidableEq

/-- The result object a registered agent handler returns on completion.
The source returns plain objects such as `{ text: ... }`; an absent field
is `none`. -/
structure AgentResult where
  text : Option String := none
  code : Option String := none
deriving DecidableEq

/-- Everything observable about one run of a registered agent handler: the
returned value or propagated error, which loopback endpoints the handler
explicitly closed, and (when reached) the arguments of the `new BeeAgent`
construction. -/
structure HandlerOutcome (ε : Type) where
  result : Except (JsError ε) AgentResult
  closed : List Endpoint
  beeConstructed : Option BeeParams

/-- The "Bee" agent handler (server.js lines 57-76): open the loopback
pair, then in a `try` block discover tools with `MCPTool.fromClient`,
construct `new BeeAgent` with `createLLM(config.llm.type)`, the discovered
tools filtered by membership of their name in `config.tools`, and a fresh
`UnconstrainedMemory`, run it on the prompt and return
`{ text: output.result.text }`; the `finally` block closes the client
endpoint on every path.  The server endpoint returned by
`createClientServerLinkedPair` is dropped and never closed here. -/
def beeHandler {ε : Type} (env : AgentEnv ε) (config : AgentConfig) (prompt : String) :
    HandlerOutcome ε :=
  match env.fromClient with
  | .error e =>
    { result := .error (.fromFramework e), closed := [.client], beeConstructed := none }
  | .ok availableTools =>
    match createLLM (ε := ε) config.llm.type with
    | .error err =>
      { result := .error err, closed := [.client], beeConstructed := none }
    | .ok llm =>
      match env.beeRun { llm := llm, tools := availableTools.filter (fun tool => config.tools.contains tool.name), memory := .unconstrained } prompt with
      | .error e =>
        { result := .error (.fromFramework e)
          closed := [.client]
          beeConstructed := some { llm := llm, tools := availableTools.filter (fun tool => config.tools.contains tool.name), memory := .unconstrained } }
      | .ok output =>
        { result := .ok { text := some output.result.text }
          closed := [.client]
          beeConstructed := some { llm := llm, tools := availableTools.filter (fun tool => config.tools.contains tool.name), memory := .unconstrained } }

/-- The "Streamlit" agent handler (server.js lines 86-94): construct
`new StreamlitAgent` with `createLLM(config.llm.type)` and a fresh
`UnconstrainedMemory`, run it on the prompt, and return
`{ text: output.result.raw }` (line 92 puts the raw output under `text`).
No loopback pair is opened and nothing is closed. -/
def streamlitHandler {ε : Type} (env : AgentEnv ε) (config : AgentConfig) (prompt : String) :
    HandlerOutcome ε :=
  match createLLM (ε := ε) config.llm.type with
  | .error err =>
    { result := .error err, closed := [], beeConstructed := none }
  | .ok llm =>
    match env.streamlitRun llm .unconstrained prompt with
    | .error e =>
      { result := .error (.fromFramework e), closed := [], beeConstructed := none }
    | .ok output =>
      { result := .ok { text := some output.result.raw }, closed := [], beeConstructed := none }

/-- An agent entry as registered on the MCP server by `server.agent(...)`:
name, description, the validity predicate of the declared config schema,
and the invocation handler. -/
structure RegisteredAgent (ε : Type) where
  name : String
  description : String
  configSchemaValid : AgentConfig → Bool
  handler : AgentConfig → String → HandlerOutcome ε

/-- `registerAgents` (server.js lines 49-96): registers "Bee" and
"Streamlit" with their schemas and handlers. -/
def registerAgents {ε : Type} (env : AgentEnv ε) : List (RegisteredAgent ε) :=
  [ { name := "Bee"
      description := "General purpose agent"
      configSchemaValid := agentConfigSchemaValid
      handler := fun config prompt => beeHandler env config prompt },
    { name := "Streamlit"
      description := "Streamlit agent"
      configSchemaValid := agentConfigSchemaValid
      handler := fun config prompt => streamlitHandler env config prompt } ]

/-- The options object of `createServer({ tools, agents })`.  A field left
out at a call site is JavaScript `undefined`, modelled as `none`. -/
structure ServerOptions where
  tools : Option Bool := none
  agents : Option Bool := none

/-- JavaScript truthiness of an optional boolean: `undefined` is falsy. -/
def truthy : Option Bool → Bool
  | none => false
  | some b => b

/-- The observable state of an `McpServer` as built by `createServer`:
identity, declared capabilities (`{}` modelled as `some ()`, `undefined` as
`none`), and the registered tools and agents. -/
structure McpServerModel (σ α β ε : Type) where
  name : String
  version : String
  capTools : Option Unit
  capAgents : Option Unit
  registeredTools : List (RegisteredTool σ α β)
  registeredAgents : List (RegisteredAgent ε)

/-- `createServer` (server.js lines 111-131): declares the `tools` and
`agents` capabilities as `{}` exactly when the corresponding flag is
truthy, and runs `registerTools` / `registerAgents` under the same
conditions. -/
def createServer {σ α β ε : Type} (tenv : ToolEnv σ α β) (aenv : AgentEnv ε)
    (opts : ServerOptions) : McpServerModel σ α β ε :=
  { name := "BeeAI Agents"
    version := "1.0.0"
    capTools := if truthy opts.tools then some () else none
    capAgents := if truthy opts.agents then some () else none
    registeredTools := if truthy opts.tools then registerTools tenv else []
    registeredAgents := if truthy opts.agents then registerAgents aenv else [] }

/-- The loopback server built inside `createClientServerLinkedPair`
(server.js line 103): `createServer({ tools: true })`, with the `agents`
field absent. -/
def createClientServerLinkedPair {σ α β ε : Type} (tenv : ToolEnv σ α β)
    (aenv : AgentEnv ε) : McpServerModel σ α β ε :=
  createServer tenv aenv { tools := some true }

/-! Concrete environments used as evaluation points. -/

/-- A concrete tool environment whose two tools declare distinct input
schema shapes (as the real OpenMeteo and DuckDuckGo tools do). -/
def toolEnvNat : ToolEnv Nat Unit Unit :=
  { weatherDescription := "weather tool"
    searchDescription := "search tool"
    weatherInputSchemaShape := 0
    searchInputSchemaShape := 1
    weatherRun := fun _ => ()
    searchRun := fun _ => () }

/-- A concrete agent environment in which discovery and both runs succeed. -/
def agentEnvSample : AgentEnv Unit :=
  { fromClient := .ok [{ name := "weather" }, { name := "search" }]
    beeRun := fun _ _ => .ok { result := { text := "bee text", raw := "bee raw" } }
    streamlitRun := fun _ _ _ => .ok { result := { text := "st text", raw := "st raw" } } }

/-- A concrete agent environment in which discovery succeeds and both agent
runs fail with framework errors. -/
def agentEnvFailing : AgentEnv String :=
  { fromClient := .ok [{ name := "weather" }, { name := "search" }]
    beeRun := fun _ _ => .error "bee run failed"
    streamlitRun := fun _ _ _ => .error "streamlit run failed" }

/-- A schema-valid agent config selecting ollama and the weather tool. -/
def sampleConfig : AgentConfig :=
  { llm := { type := "ollama" }, tools := ["weather"] }

/-! Theorems about the claims. -/

/-- C1: evaluated in an environment where the two tools declare distinct
input schema shapes, the registered "search" tool advertises the weather
tool's schema shape (server.js line 42 spreads
`weatherTool.inputSchema().shape`), which differs from the schema declared
by the search tool object's own `inputSchema()`; so the advertised schema
does not match the underlying tool's own schema for "search". -/
theorem C1_search_tool_advertises_weather_schema :
    ((registerTools toolEnvNat).find? (fun t => t.name == "search")).map
        RegisteredTool.inputSchema = some toolEnvNat.weatherInputSchemaShape
    ∧ ((registerTools toolEnvNat).find? (fun t => t.name == "search")).map
        RegisteredTool.inputSchema ≠ underlyingInputSchema toolEnvNat "search" := by
  refine ⟨rfl, ?_⟩
  decide

/-- C2 (counterexample): on a concrete successful invocation of the Bee
handler, the server endpoint of the loopback pair is not among the
endpoints the handler closed, so it is false that both endpoints of the
pair are closed by the time the handler finishes. -/
theorem C2_counterexample_server_endpoint_not_closed :
    Endpoint.server ∉ (beeHandler agentEnvSample sampleConfig "hi").closed := by
  decide

/-- C2 (amended): on every invocation of the Bee handler — whether tool
discovery fails, LLM creation fails, the agent run fails, or the run
succeeds — the list of endpoints the handler closes is exactly the client
endpoint: the `finally` block always closes the client, and the server
endpoint is never closed by the handler. -/
theorem C2_client_endpoint_always_closed {ε : Type} (env : AgentEnv ε)
    (config : AgentConfig) (prompt : String) :
    (beeHandler env config prompt).closed = [Endpoint.client] := by
  unfold beeHandler
  cases env.fromClient with
  | error e => rfl
  | ok ts =>
    cases h : createLLM (ε := ε) config.llm.type with
    | error err => simp [h]
    | ok llm =>
      simp only [h]
      cases env.beeRun _ prompt <;> rfl

/-- If `createLLM` fails, the identifier was not `"ollama"` and the error
is the locally thrown one, whose message names the identifier. -/
theorem createLLM_error_elim {ε : Type} {t : String} {e : JsError ε}
    (h : createLLM (ε := ε) t = .error e) :
    t ≠ "ollama" ∧ e = .repoThrown ("Unsupported llm " ++ t) := by
  by_cases hty : t = "ollama"
  · unfold createLLM at h
    rw [if_pos hty] at h
    exact absurd h (fun hh => Except.noConfusion hh)
  · unfold createLLM at h
    rw [if_neg hty] at h
    refine ⟨hty, ?_⟩
    injection h with h
    exact h.symm

/-- Any `repoThrown` error surfaced by the Bee handler was produced by
`createLLM` on the config's LLM type and is carried unchanged. -/
theorem beeHandler_repoThrown_from_createLLM {ε : Type} (env : AgentEnv ε)
    (config : AgentConfig) (prompt msg : String)
    (h : (beeHandler env config prompt).result = .error (.repoThrown msg)) :
    createLLM (ε := ε) config.llm.type = .error (.repoThrown msg) := by
  unfold beeHandler at h
  split at h
  · simp at h
  · split at h
    · rename_i err heq
      simp at h
      subst h
      exact heq
    · split at h <;> simp at h

/-- Any `repoThrown` error surfaced by the Streamlit handler was produced
by `createLLM` on the config's LLM type and is carried unchanged. -/
theorem streamlitHandler_repoThrown_from_createLLM {ε : Type} (env : AgentEnv ε)
    (config : AgentConfig) (prompt msg : String)
    (h : (streamlitHandler env config prompt).result = .error (.repoThrown msg)) :
    createLLM (ε := ε) config.llm.type = .error (.repoThrown msg) := by
  unfold streamlitHandler at h
  split at h
  · rename_i err heq
    simp at h
    subst h
    exact heq
  · split at h <;> simp at h

/-- When discovery and LLM creation succeed, the Bee handler reduces to a
case split on the external agent run applied to the constructed
`BeeParams`. -/
theorem beeHandler_run_cases {ε : Type} (env : AgentEnv ε) (config : AgentConfig)
    (prompt : String) (ts : List DiscoveredTool) (llm : LLM)
    (hts : env.fromClient = .ok ts)
    (hllm : createLLM (ε := ε) config.llm.type = .ok llm) :
    beeHandler env config prompt =
      match env.beeRun { llm := llm, tools := ts.filter (fun tool => config.tools.contains tool.name), memory := Memory.unconstrained } prompt with
      | .error e =>
        { result := .error (.fromFramework e), closed := [.client],
          beeConstructed := some { llm := llm, tools := ts.filter (fun tool => config.tools.contains tool.name), memory := Memory.unconstrained } }
      | .ok output =>
        { result := .ok { text := some output.result.text }, closed := [.client],
          beeConstructed := some { llm := llm, tools := ts.filter (fun tool => config.tools.contains tool.name), memory := Memory.unconstrained } } := by
  unfold beeHandler
  simp only [hts, hllm]

/-- C3: `createLLM` returns the Ollama chat client for `"ollama"` and, for
every other identifier `t`, fails with an error whose message is literally
`"Unsupported llm " ++ t` (naming the unsupported identifier); moreover
this is the only locally thrown error: any `repoThrown` error produced by
either registered agent handler carries exactly that message for the
config's LLM type. -/
theorem C3_createLLM_behavior {ε : Type} :
    (createLLM (ε := ε) "ollama" = .ok LLM.ollamaChat)
    ∧ (∀ t : String, t ≠ "ollama" →
        createLLM (ε := ε) t = .error (.repoThrown ("Unsupported llm " ++ t)))
    ∧ (∀ (env : AgentEnv ε) (config : AgentConfig) (prompt msg : String),
        (beeHandler env config prompt).result = .error (.repoThrown msg) →
          msg = "Unsupported llm " ++ config.llm.type)
    ∧ (∀ (env : AgentEnv ε) (config : AgentConfig) (prompt msg : String),
        (streamlitHandler env config prompt).result = .error (.repoThrown msg) →
          msg = "Unsupported llm " ++ config.llm.type) := by
  refine ⟨rfl, fun t ht => by simp [createLLM, ht], ?_, ?_⟩
  · intro env config prompt msg h
    have hc := beeHandler_repoThrown_from_createLLM env config prompt msg h
    have h2 := (createLLM_error_elim hc).2
    exact JsError.repoThrown.inj h2
  · intro env config prompt msg h
    have hc := streamlitHandler_repoThrown_from_createLLM env config prompt msg h
    have h2 := (createLLM_error_elim hc).2
    exact JsError.repoThrown.inj h2

/-- C3 (witness): at the concrete unsupported identifier `"gpt4"`,
`createLLM` fails with the error naming it. -/
theorem C3_createLLM_behavior_witness :
    createLLM (ε := Unit) "gpt4"
      = .error (.repoThrown ("Unsupported llm " ++ "gpt4")) :=
  (C3_createLLM_behavior (ε := Unit)).2.1 "gpt4" (by decide)

/-- C4: for every tool environment and every argument object, the
registered "weather" handler returns exactly `weatherTool.run(args)` and
the registered "search" handler returns exactly `searchTool.run(args)`:
pass-through identity with the arguments unmodified. -/
theorem C4_tool_handlers_pass_through {σ α β : Type} (env : ToolEnv σ α β) (args : α) :
    ((registerTools env).find? (fun t => t.name == "weather")).map
        (fun t => t.handler args) = some (env.weatherRun args)
    ∧ ((registerTools env).find? (fun t => t.name == "search")).map
        (fun t => t.handler args) = some (env.searchRun args) :=
  ⟨rfl, rfl⟩

/-- C5: `createServer` with both flags false registers no tools and no
agents and declares neither capability; conversely, whenever a flag is
truthy the corresponding registrar runs (the registered list is exactly
that registrar's output) and the corresponding capability is declared as
`{}`. -/
theorem C5_createServer_flags {σ α β ε : Type} (tenv : ToolEnv σ α β) (aenv : AgentEnv ε) :
    ((createServer tenv aenv { tools := some false, agents := some false }).registeredTools = []
      ∧ (createServer tenv aenv { tools := some false, agents := some false }).registeredAgents = []
      ∧ (createServer tenv aenv { tools := some false, agents := some false }).capTools = none
      ∧ (createServer tenv aenv { tools := some false, agents := some false }).capAgents = none)
    ∧ (∀ opts : ServerOptions, truthy opts.tools = true →
        (createServer tenv aenv opts).registeredTools = registerTools tenv
          ∧ (createServer tenv aenv opts).capTools = some ())
    ∧ (∀ opts : ServerOptions, truthy opts.agents = true →
        (createServer tenv aenv opts).registeredAgents = registerAgents aenv
          ∧ (createServer tenv aenv opts).capAgents = some ()) := by
  refine ⟨⟨rfl, rfl, rfl, rfl⟩, fun opts h => ?_, fun opts h => ?_⟩
  · constructor <;> simp [createServer, h]
  · constructor <;> simp [createServer, h]

/-- C5 (witness): at the concrete options `{tools: true, agents: true}`,
the tools registrar ran and the tools capability is declared. -/
theorem C5_createServer_flags_witness :
    (createServer toolEnvNat agentEnvSample
        { tools := some true, agents := some true }).registeredTools = registerTools toolEnvNat
    ∧ (createServer toolEnvNat agentEnvSample
        { tools := some true, agents := some true }).capTools = some () :=
  (C5_createServer_flags toolEnvNat agentEnvSample).2.1
    { tools := some true, agents := some true } rfl

/-- C6: when tool discovery over the freshly opened loopback client yields
`ts` and `createLLM` succeeds on the config's LLM type, the `BeeAgent` is
constructed with exactly the discovered tools whose names are members of
the caller-supplied `config.tools` list, that LLM, and a fresh
`UnconstrainedMemory`; membership in the filtered tool list is exactly the
intersection of the discovered tools with the configured tool names. -/
theorem C6_bee_construction {ε : Type} (env : AgentEnv ε) (config : AgentConfig)
    (prompt : String) (ts : List DiscoveredTool) (llm : LLM)
    (hts : env.fromClient = .ok ts)
    (hllm : createLLM (ε := ε) config.llm.type = .ok llm) :
    (beeHandler env config prompt).beeConstructed
      = some { llm := llm, tools := ts.filter (fun tool => config.tools.contains tool.name), memory := Memory.unconstrained }
    ∧ ∀ tool : DiscoveredTool,
        tool ∈ ts.filter (fun tool => config.tools.contains tool.name)
          ↔ tool ∈ ts ∧ tool.name ∈ config.tools := by
  constructor
  · rw [beeHandler_run_cases env config prompt ts llm hts hllm]
    cases env.beeRun { llm := llm, tools := ts.filter (fun tool => config.tools.contains tool.name), memory := Memory.unconstrained } prompt <;> rfl
  · intro tool
    simp [List.mem_filter]

/-- C6 (witness): concrete invocation in which discovery finds "weather"
and "search" and the config enables only "weather". -/
theorem C6_bee_construction_witness :
    (beeHandler agentEnvSample sampleConfig "hi").beeConstructed
      = some { llm := LLM.ollamaChat
               tools := [({ name := "weather" } : DiscoveredTool), { name := "search" }].filter
                 (fun tool => sampleConfig.tools.contains tool.name)
               memory := Memory.unconstrained }
    ∧ ∀ tool : DiscoveredTool,
        tool ∈ [({ name := "weather" } : DiscoveredTool), { name := "search" }].filter
            (fun tool => sampleConfig.tools.contains tool.name)
          ↔ tool ∈ [({ name := "weather" } : DiscoveredTool), { name := "search" }]
              ∧ tool.name ∈ sampleConfig.tools :=
  C6_bee_construction agentEnvSample sampleConfig "hi"
    [{ name := "weather" }, { name := "search" }] LLM.ollamaChat rfl rfl

/-- C7 (counterexample): on a concrete completing invocation, the
Streamlit handler returns the run's raw output under `text` with no `code`
field, refuting the claim that the Streamlit agent returns its raw
generated output under `code`. -/
theorem C7_counterexample_streamlit_raw_under_text :
    (streamlitHandler agentEnvSample sampleConfig "hi").result
        = .ok { text := some "st raw", code := none }
    ∧ (streamlitHandler agentEnvSample sampleConfig "hi").result
        ≠ .ok { text := none, code := some "st raw" } := by
  refine ⟨rfl, fun h => ?_⟩
  rw [show (streamlitHandler agentEnvSample sampleConfig "hi").result
      = .ok { text := some "st raw", code := none } from rfl] at h
  simp at h

/-- C7 (amended): every completing handler returns a result object
containing `text` and no `code`: the Bee handler returns its run's
`result.text` under `text`, and the Streamlit handler returns its run's
raw output `result.raw` under `text` (server.js line 92), not under
`code`. -/
theorem C7_completed_results {ε : Type} (env : AgentEnv ε) (config : AgentConfig)
    (prompt : String) :
    (∀ (ts : List DiscoveredTool) (llm : LLM) (output : RunOutput),
        env.fromClient = .ok ts →
        createLLM (ε := ε) config.llm.type = .ok llm →
        env.beeRun { llm := llm, tools := ts.filter (fun tool => config.tools.contains tool.name), memory := Memory.unconstrained } prompt = .ok output →
        (beeHandler env config prompt).result
          = .ok { text := some output.result.text, code := none })
    ∧ (∀ (llm : LLM) (output : RunOutput),
        createLLM (ε := ε) config.llm.type = .ok llm →
        env.streamlitRun llm Memory.unconstrained prompt = .ok output →
        (streamlitHandler env config prompt).result
          = .ok { text := some output.result.raw, code := none }) := by
  constructor
  · intro ts llm output hts hllm hrun
    rw [beeHandler_run_cases env config prompt ts llm hts hllm, hrun]
  · intro llm output hllm hrun
    unfold streamlitHandler
    simp only [hllm, hrun]

/-- C7 (witness): concrete completing invocations of both handlers. -/
theorem C7_completed_results_witness :
    (beeHandler agentEnvSample sampleConfig "hi").result
      = .ok { text := some "bee text", code := none }
    ∧ (streamlitHandler agentEnvSample sampleConfig "hi").result
      = .ok { text := some "st raw", code := none } :=
  ⟨(C7_completed_results agentEnvSample sampleConfig "hi").1
      [{ name := "weather" }, { name := "search" }] LLM.ollamaChat
      { result := { text := "bee text", raw := "bee raw" } } rfl rfl rfl,
   (C7_completed_results agentEnvSample sampleConfig "hi").2 LLM.ollamaChat
      { result := { text := "st text", raw := "st raw" } } rfl rfl⟩

/-- C8: failures of external calls inside the Bee handler propagate to the
handler's result unchanged: if tool discovery fails with a framework error
`e`, or the agent run fails with `e`, the handler's result is exactly that
error (injected unchanged into the error union), with no catching,
wrapping, or substitution. -/
theorem C8_errors_propagate_unchanged {ε : Type} (env : AgentEnv ε)
    (config : AgentConfig) (prompt : String) (e : ε) :
    (env.fromClient = .error e →
      (beeHandler env config prompt).result = .error (.fromFramework e))
    ∧ (∀ (ts : List DiscoveredTool) (llm : LLM),
        env.fromClient = .ok ts →
        createLLM (ε := ε) config.llm.type = .ok llm →
        env.beeRun { llm := llm, tools := ts.filter (fun tool => config.tools.contains tool.name), memory := Memory.unconstrained } prompt = .error e →
        (beeHandler env config prompt).result = .error (.fromFramework e)) := by
  constructor
  · intro he
    unfold beeHandler
    simp only [he]
  · intro ts llm hts hllm hrun
    rw [beeHandler_run_cases env config prompt ts llm hts hllm, hrun]

/-- C8 (witness): concrete invocation whose agent run fails with the
framework error "bee run failed"; the handler surfaces exactly it. -/
theorem C8_errors_propagate_unchanged_witness :
    (beeHandler agentEnvFailing sampleConfig "hi").result
      = .error (.fromFramework "bee run failed") :=
  (C8_errors_propagate_unchanged agentEnvFailing sampleConfig "hi" "bee run failed").2
    [{ name := "weather" }, { name := "search" }] LLM.ollamaChat rfl rfl rfl

/-- C9: a config that validates against the declared registration schema
has LLM type "ollama", so `createLLM` succeeds on it and no invocation of
the Bee handler with a schema-valid config can surface the locally thrown
"Unsupported llm" error: that error branch is unreachable. -/
theorem C9_schema_valid_no_unsupported_llm {ε : Type} (c : AgentConfig)
    (h : agentConfigSchemaValid c = true) :
    createLLM (ε := ε) c.llm.type = .ok LLM.ollamaChat
    ∧ ∀ (env : AgentEnv ε) (prompt msg : String),
        (beeHandler env c prompt).result ≠ .error (.repoThrown msg) := by
  have hty : c.llm.type = "ollama" := by
    have h1 := ((Bool.and_eq_true _ _).mp h).1
    simpa [llmSchemaValid] using h1
  have hok : createLLM (ε := ε) c.llm.type = .ok LLM.ollamaChat := by
    simp [createLLM, hty]
  refine ⟨hok, ?_⟩
  intro env prompt msg hcontra
  have hc := beeHandler_repoThrown_from_createLLM env c prompt msg hcontra
  rw [hok] at hc
  exact Except.noConfusion hc

/-- C9 (witness): the concrete schema-valid config selecting ollama. -/
theorem C9_schema_valid_no_unsupported_llm_witness :
    createLLM (ε := Unit) sampleConfig.llm.type = .ok LLM.ollamaChat
    ∧ (beeHandler agentEnvSample sampleConfig "hi").result
        ≠ .error (.repoThrown "Unsupported llm ollama") :=
  ⟨(C9_schema_valid_no_unsupported_llm (ε := Unit) sampleConfig (by decide)).1,
   (C9_schema_valid_no_unsupported_llm (ε := Unit) sampleConfig (by decide)).2
      agentEnvSample "hi" "Unsupported llm ollama"⟩

/-- C10: the loopback server built inside `createClientServerLinkedPair`
comes from `createServer({tools: true})` with the agents flag absent
(hence falsy): it registers exactly the two tools "weather" and "search",
registers no agents, and declares no agents capability, so loopback tool
discovery can only ever see those two tools and no recursive agent
registration occurs. -/
theorem C10_loopback_server_tools_only {σ α β ε : Type} (tenv : ToolEnv σ α β)
    (aenv : AgentEnv ε) :
    (createClientServerLinkedPair tenv aenv).registeredTools = registerTools tenv
    ∧ (createClientServerLinkedPair tenv aenv).registeredTools.map RegisteredTool.name
        = ["weather", "search"]
    ∧ (createClientServerLinkedPair tenv aenv).registeredAgents = []
    ∧ (createClientServerLinkedPair tenv aenv).capAgents = none :=
  ⟨rfl, rfl, rfl, rfl⟩

end ProviderExample
